import Mathlib

/-!
Verification of the Open-Meteo Solar Forecast integration
(`custom_components/open_meteo_solar_forecast/coordinator.py` and `sensor.py`).

The embedding translates the coordinator's pure logic into Lean:
Python floats are modelled as exact rationals (`ℚ`), Python dicts as
association lists that preserve insertion order, fallible code as `Except`,
and the HTTP/JSON surface as explicit data (`HttpResponse`, `JsonBody`).
-/

namespace OpenMeteoSolar

/-- A forecast timestamp; only its hour-of-day field is read by the
adjustment logic (`timestamp.hour` in the source). -/
structure Timestamp where
  hour : ℕ
deriving DecidableEq, Repr

/-- The part of the external library's `Estimate` object that the
coordinator mutates: `watts` (timestamp → instantaneous watts),
`wh_period` (timestamp → period energy) and `wh_days` (day → daily energy),
each modelled as an insertion-ordered association list. -/
structure Estimate where
  watts : List (Timestamp × ℚ)
  wh_period : List (Timestamp × ℚ)
  wh_days : List (ℕ × ℚ)
deriving DecidableEq, Repr

/-- Default entry used with `List.getD` when indexing hourly mappings. -/
def dfltEntry : Timestamp × ℚ := (⟨0⟩, 0)

/-- Default entry used with `List.getD` when indexing the daily mapping. -/
def dfltDay : ℕ × ℚ := (0, 0)

/-- `adjustment_factor = 1.0 - (cloud_cover_percent / 100.0 * 0.7)`
(coordinator.py lines 137, 146, 154). -/
def adjustmentFactor (cloud_cover_percent : ℚ) : ℚ :=
  1 - cloud_cover_percent / 100 * (7 / 10)

/-- One entry of the hourly adjustment loops (coordinator.py lines 129-147):
`hour_index = timestamp.hour`; the value is scaled only when
`0 <= hour_index < len(cloud_cover_data)`. -/
def adjustHourlyEntry (cloud_cover_data : List ℚ) (p : Timestamp × ℚ) :
    Timestamp × ℚ :=
  if p.1.hour < cloud_cover_data.length then
    (p.1, p.2 * adjustmentFactor (cloud_cover_data.getD p.1.hour 0))
  else p

/-- `day_cloud_cover = sum(cloud_cover_data[:24]) / 24`
(coordinator.py line 153): the divisor is the constant 24 even when the
series holds fewer than 24 entries. -/
def day_cloud_cover (cloud_cover_data : List ℚ) : ℚ :=
  (cloud_cover_data.take 24).sum / 24

/-- `_adjust_estimate_with_cloud_cover` (coordinator.py lines 113-175):
returns unchanged on an empty series; otherwise scales each `watts` and
`wh_period` entry whose hour is in range, and scales every `wh_days` entry
by the single factor derived from `day_cloud_cover`. -/
def adjust_estimate_with_cloud_cover (estimate : Estimate)
    (cloud_cover_data : List ℚ) : Estimate :=
  if cloud_cover_data = [] then estimate
  else
    { watts := estimate.watts.map (adjustHourlyEntry cloud_cover_data)
      wh_period := estimate.wh_period.map (adjustHourlyEntry cloud_cover_data)
      wh_days := estimate.wh_days.map (fun p =>
        (p.1, p.2 * adjustmentFactor (day_cloud_cover cloud_cover_data))) }

/-- Round-half-to-even to an integer, the rounding mode of Python's
built-in `round`. -/
def roundHalfEvenInt (q : ℚ) : ℤ :=
  let f : ℤ := ⌊q⌋
  if q - f < 1 / 2 then f
  else if 1 / 2 < q - f then f + 1
  else if f % 2 = 0 then f else f + 1

/-- `round(float(value), 2)` (coordinator.py line 30): round to 2 decimal
places, half to even. -/
def roundTo2 (q : ℚ) : ℚ :=
  (roundHalfEvenInt (q * 100) : ℚ) / 100

/-- Numeric value of a decimal digit character. -/
def digitVal (c : Char) : ℕ := c.toNat - 48

/-- Value of a digit string read left to right (empty list reads as 0). -/
def digitsToNat (s : List Char) : ℕ :=
  s.foldl (fun n c => n * 10 + digitVal c) 0

/-- Unsigned part of Python `float(...)` string parsing, restricted to the
plain decimal forms `digits`, `digits.digits`, `digits.` and `.digits`
(the forms the configuration values take). -/
def parseUnsigned (s : List Char) : Option ℚ :=
  match s.dropWhile Char.isDigit with
  | [] =>
      if s.takeWhile Char.isDigit = [] then none
      else some (digitsToNat (s.takeWhile Char.isDigit) : ℚ)
  | c :: frac =>
      if c = '.' ∧ frac.all Char.isDigit ∧
          (s.takeWhile Char.isDigit ≠ [] ∨ frac ≠ []) then
        some ((digitsToNat (s.takeWhile Char.isDigit) : ℚ) +
          (digitsToNat frac : ℚ) / (10 ^ frac.length))
      else none

/-- Python `float(s)` on a string, restricted to decimal numerals with an
optional leading sign; `none` models `ValueError`. -/
def parseFloat (s : List Char) : Option ℚ :=
  match s with
  | '-' :: rest => (parseUnsigned rest).map (fun q => -q)
  | '+' :: rest => parseUnsigned rest
  | _ => parseUnsigned s

/-- Whether a character is one of the bracket characters stripped by
`value.strip` with the two-character argument of brackets. -/
def isBracket (c : Char) : Bool :=
  c = '[' ∨ c = ']'

/-- Python `value.strip` with the bracket pair as argument: remove every
leading and trailing `[` or `]` character (coordinator.py line 29). -/
def pyStripBrackets (s : List Char) : List Char :=
  (((s.dropWhile isBracket).reverse.dropWhile isBracket)).reverse

/-- The Python exception kinds `clean_value` can raise: `float()` on a
non-numeric string raises `ValueError`; `float()` on a list raises
`TypeError`. -/
inductive PyError where
  | valueErr
  | typeErr
deriving DecidableEq, Repr

/-- The raw configuration shapes a coordinate may arrive in: a plain
number, a string (possibly wrapped in brackets), or a sequence. -/
inductive RawCoord where
  | num (q : ℚ)
  | str (s : List Char)
  | seq (l : List ℚ)
deriving DecidableEq, Repr

/-- `clean_value` (coordinator.py lines 26-32): strings are bracket-stripped
then parsed with `float`; numbers pass through `float` unchanged; any other
shape (such as a list) makes `float()` raise `TypeError`. The result is
rounded to 2 decimals. -/
def clean_value : RawCoord → Except PyError ℚ
  | .num q => .ok (roundTo2 q)
  | .str s =>
      match parseFloat (pyStripBrackets s) with
      | some q => .ok (roundTo2 q)
      | none => .error .valueErr
  | .seq _ => .error .typeErr

/-- How `__init__` can fail: a coercion failure propagating out of
`clean_value`, or the explicit `ValueError` raised by the range check
(coordinator.py lines 53-54). -/
inductive InitError where
  | coercion (e : PyError)
  | configError
deriving DecidableEq, Repr

/-- The configuration entry fields the embedding needs: the raw coordinate
values and the configured custom base URL option. -/
structure Config where
  latitude : RawCoord
  longitude : RawCoord
  baseUrl : String
deriving Repr

/-- Adjustment statistics that sensor.py reads from the coordinator when
the attribute exists (`adjustment_percentage`, `average_cloud_cover`). -/
structure AdjStats where
  adjustment_percentage : ℚ
  average_cloud_cover : ℚ
deriving DecidableEq, Repr

/-- The coordinator's state: the cleaned coordinates, the stored
configuration, the published estimate (`coordinator.data`, `none` before
the first successful refresh), and the optional `adjustment_stats`
attribute that sensor.py probes with `hasattr`. -/
structure CoordinatorState where
  latitude : ℚ
  longitude : ℚ
  baseUrl : String
  data : Option Estimate
  adjustment_stats : Option AdjStats
deriving Repr

/-- `__init__` (coordinator.py lines 38-74): clean both coordinates, then
raise when the cleaned latitude is outside [-90, 90] or the cleaned
longitude is outside [-180, 180]; no network request is made here. -/
def initCoordinator (cfg : Config) : Except InitError CoordinatorState :=
  match clean_value cfg.latitude with
  | .error e => .error (.coercion e)
  | .ok lat =>
      match clean_value cfg.longitude with
      | .error e => .error (.coercion e)
      | .ok lon =>
          if ¬(-90 ≤ lat ∧ lat ≤ 90) ∨ ¬(-180 ≤ lon ∧ lon ≤ 180) then
            .error .configError
          else
            .ok { latitude := lat, longitude := lon, baseUrl := cfg.baseUrl,
                  data := none, adjustment_stats := none }

/-- The HTTP request `_fetch_hourly_cloud_cover` issues, split into its
components (coordinator.py line 97). -/
structure CloudRequest where
  method : String
  base : String
  path : String
  latitude : ℚ
  longitude : ℚ
  hourly : String
deriving DecidableEq, Repr

/-- The request built by `_fetch_hourly_cloud_cover` (coordinator.py lines
92-97): the host is the literal `https://api.open-meteo.com` in the
f-string, and the coordinates are `clean_value` applied to the already
cleaned stored coordinates. -/
def cloudRequest (c : CoordinatorState) : CloudRequest :=
  { method := "GET"
    base := "https://api.open-meteo.com"
    path := "/v1/forecast"
    latitude := roundTo2 c.latitude
    longitude := roundTo2 c.longitude
    hourly := "cloud_cover" }

/-- The `hourly` JSON object; `cloud_cover` may be absent. -/
structure HourlyBlock where
  cloud_cover : Option (List ℚ)
deriving DecidableEq, Repr

/-- The parsed JSON body; the `hourly` field may be absent. -/
structure JsonBody where
  hourly : Option HourlyBlock
deriving DecidableEq, Repr

/-- An HTTP response to the cloud-cover request: its status code and its
body, where `none` models a body that fails to parse as JSON. -/
structure HttpResponse where
  status : ℕ
  body : Option JsonBody
deriving DecidableEq, Repr

/-- The failure causes a refresh cycle can hit: the forecast library
raising, a non-200 cloud-cover status, or malformed JSON. -/
inductive CycleError where
  | forecastError (msg : String)
  | fetchStatus (status : ℕ)
  | malformedJson
deriving DecidableEq, Repr

/-- The `OpenMeteoSolarForecastUpdateFailed` exception raised at the cycle
boundary, carrying its original cause (`raise ... from error`,
coordinator.py line 88). -/
structure UpdateFailed where
  cause : CycleError
deriving DecidableEq, Repr

/-- `_fetch_hourly_cloud_cover` (coordinator.py lines 90-111): raise on a
non-200 status, raise on malformed JSON, and otherwise return
`data.get("hourly", ...).get("cloud_cover", ...)` with an empty-list
default at each step. -/
def fetch_hourly_cloud_cover (resp : HttpResponse) :
    Except CycleError (List ℚ) :=
  if resp.status ≠ 200 then .error (.fetchStatus resp.status)
  else
    match resp.body with
    | none => .error .malformedJson
    | some data => .ok (((data.hourly.getD ⟨none⟩).cloud_cover).getD [])

/-- `_async_update_data` (coordinator.py lines 76-88): obtain the baseline
estimate, fetch the cloud-cover series, adjust, and wrap any failure in a
single `UpdateFailed` carrying the original cause. -/
def async_update_data (forecastResult : Except String Estimate)
    (resp : HttpResponse) : Except UpdateFailed Estimate :=
  match forecastResult with
  | .error e => .error ⟨.forecastError e⟩
  | .ok estimate =>
      match fetch_hourly_cloud_cover resp with
      | .error ce => .error ⟨ce⟩
      | .ok cloud_cover_data =>
          .ok (adjust_estimate_with_cloud_cover estimate cloud_cover_data)

/-- Modelled from the spec: the host platform's update-coordinator
scheduling primitive (an external collaborator, not part of this
repository) stores the value returned by `_async_update_data` as the new
published data, and on `UpdateFailed` marks the data stale while keeping
the previously published value. -/
def refreshStep (c : CoordinatorState) (forecastResult : Except String Estimate)
    (resp : HttpResponse) : CoordinatorState :=
  match async_update_data forecastResult resp with
  | .ok estimate => { c with data := some estimate }
  | .error _ => c

/-- Format a rational as a percentage with one decimal place, the `:.1f`
formatting used by sensor.py. -/
def formatPercent1 (q : ℚ) : String :=
  let t : ℤ := roundHalfEvenInt (q * 10)
  toString (t / 10) ++ "." ++ toString (t % 10).natAbs ++ "%"

/-- `OpenMeteoSolarCloudCoverDebugSensor.native_value` (sensor.py lines
382-388): the formatted adjustment percentage when the coordinator has an
`adjustment_stats` attribute, and the string `No data` otherwise. -/
def debugNativeValue (c : CoordinatorState) : String :=
  match c.adjustment_stats with
  | some stats => formatPercent1 stats.adjustment_percentage
  | none => "No data"

/-- The `cloud_adjustment` attribute added to energy sensors (sensor.py
lines 346-355): present exactly when the coordinator has an
`adjustment_stats` attribute. -/
def cloudAdjustmentInfo (c : CoordinatorState) : Option (String × String) :=
  c.adjustment_stats.map (fun s =>
    (formatPercent1 s.average_cloud_cover,
     formatPercent1 s.adjustment_percentage))

/-! ## Helper lemmas -/

/-- Indexing a mapped list below its length indexes the original list. -/
theorem getD_map_of_lt {α β : Type} (f : α → β) (l : List α) (i : ℕ)
    (h : i < l.length) (d : β) (d2 : α) :
    (l.map f).getD i d = f (l.getD i d2) := by
  rw [List.getD_eq_getElem _ _ (by simpa using h),
    List.getD_eq_getElem _ _ h, List.getElem_map]

/-- An in-bounds `getD` is a member of the list. -/
theorem getD_mem_of_lt {α : Type} (l : List α) (i : ℕ) (h : i < l.length)
    (d : α) : l.getD i d ∈ l := by
  rw [List.getD_eq_getElem _ _ h]
  exact List.getElem_mem h

/-- Pointwise behaviour of one hourly adjustment pass. -/
theorem adjustHourly_getD (ccd : List ℚ) (L : List (Timestamp × ℚ)) (i : ℕ)
    (h : i < L.length) :
    (L.map (adjustHourlyEntry ccd)).getD i dfltEntry =
      (if (L.getD i dfltEntry).1.hour < ccd.length then
        ((L.getD i dfltEntry).1,
         (L.getD i dfltEntry).2 *
           adjustmentFactor (ccd.getD (L.getD i dfltEntry).1.hour 0))
       else L.getD i dfltEntry) := by
  rw [getD_map_of_lt _ _ _ h _ dfltEntry]
  rfl

/-! ## Claims -/

/-- Claim C1: for every baseline estimate and non-empty cloud-cover series,
every watts and period-energy entry whose hour-of-day indexes into the
series is replaced by `v * (1 - cloud_cover_percent / 100 * 0.7)` (others
are untouched); a series of all 100s scales every such value by exactly
3/10; and the concrete scenario with watts `{T0: 1000, T1: 2000}` and
series `[50, 100]` yields `{T0: 650, T1: 600}`. -/
theorem claim_C1 (est : Estimate) (ccd : List ℚ) (hne : ccd ≠ []) :
    (∀ i, i < est.watts.length →
      (adjust_estimate_with_cloud_cover est ccd).watts.getD i dfltEntry =
        (if (est.watts.getD i dfltEntry).1.hour < ccd.length then
          ((est.watts.getD i dfltEntry).1,
           (est.watts.getD i dfltEntry).2 *
             (1 - ccd.getD (est.watts.getD i dfltEntry).1.hour 0 / 100 *
               (7 / 10)))
         else est.watts.getD i dfltEntry))
    ∧ (∀ i, i < est.wh_period.length →
      (adjust_estimate_with_cloud_cover est ccd).wh_period.getD i dfltEntry =
        (if (est.wh_period.getD i dfltEntry).1.hour < ccd.length then
          ((est.wh_period.getD i dfltEntry).1,
           (est.wh_period.getD i dfltEntry).2 *
             (1 - ccd.getD (est.wh_period.getD i dfltEntry).1.hour 0 / 100 *
               (7 / 10)))
         else est.wh_period.getD i dfltEntry))
    ∧ ((∀ c ∈ ccd, c = 100) →
        (∀ i, i < est.watts.length →
          (est.watts.getD i dfltEntry).1.hour < ccd.length →
          ((adjust_estimate_with_cloud_cover est ccd).watts.getD i
              dfltEntry).2 =
            3 / 10 * (est.watts.getD i dfltEntry).2)
        ∧ (∀ i, i < est.wh_period.length →
          (est.wh_period.getD i dfltEntry).1.hour < ccd.length →
          ((adjust_estimate_with_cloud_cover est ccd).wh_period.getD i
              dfltEntry).2 =
            3 / 10 * (est.wh_period.getD i dfltEntry).2))
    ∧ (adjust_estimate_with_cloud_cover
        ⟨[(⟨0⟩, 1000), (⟨1⟩, 2000)], [], []⟩ [50, 100]).watts =
        [(⟨0⟩, 650), (⟨1⟩, 600)] := by
  have hadj : ∀ (L : List (Timestamp × ℚ)) (i : ℕ), i < L.length →
      (L.map (adjustHourlyEntry ccd)).getD i dfltEntry =
        (if (L.getD i dfltEntry).1.hour < ccd.length then
          ((L.getD i dfltEntry).1,
           (L.getD i dfltEntry).2 *
             (1 - ccd.getD (L.getD i dfltEntry).1.hour 0 / 100 * (7 / 10)))
         else L.getD i dfltEntry) := by
    intro L i h
    rw [adjustHourly_getD ccd L i h]
    rfl
  have hunfold :
      adjust_estimate_with_cloud_cover est ccd =
        { watts := est.watts.map (adjustHourlyEntry ccd)
          wh_period := est.wh_period.map (adjustHourlyEntry ccd)
          wh_days := est.wh_days.map (fun p =>
            (p.1, p.2 * adjustmentFactor (day_cloud_cover ccd))) } := by
    simp [adjust_estimate_with_cloud_cover, hne]
  refine ⟨?_, ?_, ?_, ?_⟩
  · intro i h
    rw [hunfold]
    exact hadj est.watts i h
  · intro i h
    rw [hunfold]
    exact hadj est.wh_period i h
  · intro hall
    constructor
    · intro i h hh
      rw [hunfold]
      rw [hadj est.watts i h, if_pos hh]
      have hmem : ccd.getD (est.watts.getD i dfltEntry).1.hour 0 ∈ ccd :=
        getD_mem_of_lt ccd _ hh 0
      rw [hall _ hmem]
      ring
    · intro i h hh
      rw [hunfold]
      rw [hadj est.wh_period i h, if_pos hh]
      have hmem : ccd.getD (est.wh_period.getD i dfltEntry).1.hour 0 ∈ ccd :=
        getD_mem_of_lt ccd _ hh 0
      rw [hall _ hmem]
      ring
  · have h2 : ([50, 100] : List ℚ) ≠ [] := by simp
    simp only [adjust_estimate_with_cloud_cover, if_neg h2, List.map,
      adjustHourlyEntry, adjustmentFactor]
    norm_num [List.getD]

/-- Claim C1 witness: the theorem applied at the scenario inputs. -/
theorem claim_C1_witness :
    ([(50 : ℚ), 100] ≠ []) ∧
    ((∀ i, i < (Estimate.mk [(⟨0⟩, 1000), (⟨1⟩, 2000)] [] []).watts.length →
      (adjust_estimate_with_cloud_cover
          ⟨[(⟨0⟩, 1000), (⟨1⟩, 2000)], [], []⟩ [50, 100]).watts.getD i
          dfltEntry =
        (if ((Estimate.mk [(⟨0⟩, 1000), (⟨1⟩, 2000)] [] []).watts.getD i
              dfltEntry).1.hour < ([(50 : ℚ), 100]).length then
          (((Estimate.mk [(⟨0⟩, 1000), (⟨1⟩, 2000)] [] []).watts.getD i
              dfltEntry).1,
           ((Estimate.mk [(⟨0⟩, 1000), (⟨1⟩, 2000)] [] []).watts.getD i
              dfltEntry).2 *
             (1 - ([(50 : ℚ), 100]).getD
                 ((Estimate.mk [(⟨0⟩, 1000), (⟨1⟩, 2000)] [] []).watts.getD i
                   dfltEntry).1.hour 0 / 100 * (7 / 10)))
         else (Estimate.mk [(⟨0⟩, 1000), (⟨1⟩, 2000)] [] []).watts.getD i
           dfltEntry))
    ∧ (∀ i, i < (Estimate.mk [(⟨0⟩, 1000), (⟨1⟩, 2000)] [] []).wh_period.length →
      (adjust_estimate_with_cloud_cover
          ⟨[(⟨0⟩, 1000), (⟨1⟩, 2000)], [], []⟩ [50, 100]).wh_period.getD i
          dfltEntry =
        (if ((Estimate.mk [(⟨0⟩, 1000), (⟨1⟩, 2000)] [] []).wh_period.getD i
              dfltEntry).1.hour < ([(50 : ℚ), 100]).length then
          (((Estimate.mk [(⟨0⟩, 1000), (⟨1⟩, 2000)] [] []).wh_period.getD i
              dfltEntry).1,
           ((Estimate.mk [(⟨0⟩, 1000), (⟨1⟩, 2000)] [] []).wh_period.getD i
              dfltEntry).2 *
             (1 - ([(50 : ℚ), 100]).getD
                 ((Estimate.mk [(⟨0⟩, 1000), (⟨1⟩, 2000)] [] []).wh_period.getD
                   i dfltEntry).1.hour 0 / 100 * (7 / 10)))
         else (Estimate.mk [(⟨0⟩, 1000), (⟨1⟩, 2000)] [] []).wh_period.getD i
           dfltEntry))
    ∧ ((∀ c ∈ [(50 : ℚ), 100], c = 100) →
        (∀ i, i < (Estimate.mk [(⟨0⟩, 1000), (⟨1⟩, 2000)] [] []).watts.length →
          ((Estimate.mk [(⟨0⟩, 1000), (⟨1⟩, 2000)] [] []).watts.getD i
              dfltEntry).1.hour < ([(50 : ℚ), 100]).length →
          ((adjust_estimate_with_cloud_cover
              ⟨[(⟨0⟩, 1000), (⟨1⟩, 2000)], [], []⟩ [50, 100]).watts.getD i
              dfltEntry).2 =
            3 / 10 * ((Estimate.mk [(⟨0⟩, 1000), (⟨1⟩, 2000)] [] []).watts.getD
              i dfltEntry).2)
        ∧ (∀ i, i < (Estimate.mk [(⟨0⟩, 1000), (⟨1⟩, 2000)] []
              []).wh_period.length →
          ((Estimate.mk [(⟨0⟩, 1000), (⟨1⟩, 2000)] [] []).wh_period.getD i
              dfltEntry).1.hour < ([(50 : ℚ), 100]).length →
          ((adjust_estimate_with_cloud_cover
              ⟨[(⟨0⟩, 1000), (⟨1⟩, 2000)], [], []⟩ [50, 100]).wh_period.getD i
              dfltEntry).2 =
            3 / 10 * ((Estimate.mk [(⟨0⟩, 1000), (⟨1⟩, 2000)] []
              []).wh_period.getD i dfltEntry).2))
    ∧ (adjust_estimate_with_cloud_cover
        ⟨[(⟨0⟩, 1000), (⟨1⟩, 2000)], [], []⟩ [50, 100]).watts =
        [(⟨0⟩, 650), (⟨1⟩, 600)]) :=
  ⟨by simp, claim_C1 ⟨[(⟨0⟩, 1000), (⟨1⟩, 2000)], [], []⟩ [50, 100] (by simp)⟩

/-- Claim C2: a JSON body lacking `hourly.cloud_cover` makes the fetcher
return the empty sequence (not an error), and adjusting any estimate with
the empty series returns it unchanged field-for-field. -/
theorem claim_C2 (body : JsonBody) (est : Estimate)
    (h : (body.hourly.getD ⟨none⟩).cloud_cover = none) :
    fetch_hourly_cloud_cover ⟨200, some body⟩ = .ok []
    ∧ adjust_estimate_with_cloud_cover est [] = est := by
  constructor
  · simp [fetch_hourly_cloud_cover, h]
  · simp [adjust_estimate_with_cloud_cover]

/-- Claim C2 witness: the theorem applied at the body with no `hourly`
field and the scenario estimate. -/
theorem claim_C2_witness :
    (((JsonBody.mk none).hourly.getD ⟨none⟩).cloud_cover = none)
    ∧ (fetch_hourly_cloud_cover ⟨200, some (JsonBody.mk none)⟩ = .ok []
      ∧ adjust_estimate_with_cloud_cover
          ⟨[(⟨0⟩, 1000), (⟨1⟩, 2000)], [], []⟩ [] =
          ⟨[(⟨0⟩, 1000), (⟨1⟩, 2000)], [], []⟩) :=
  ⟨rfl, claim_C2 ⟨none⟩ ⟨[(⟨0⟩, 1000), (⟨1⟩, 2000)], [], []⟩ rfl⟩

/-- Claim C3 counterexample: for the one-entry series `[100]`, the code's
daily mean is `100 / 24` (the divisor is always 24), not the mean of all
entries (100): the daily value 2400 becomes 2330, not
`2400 * (1 - 100 / 100 * 0.7) = 720` as the claim prescribes. -/
theorem claim_C3_counterexample :
    (adjust_estimate_with_cloud_cover ⟨[], [], [(0, 2400)]⟩ [100]).wh_days =
      [(0, 2330)]
    ∧ (2330 : ℚ) ≠ 2400 * (1 - 100 / 100 * (7 / 10)) := by
  constructor
  · have h2 : ([100] : List ℚ) ≠ [] := by simp
    simp only [adjust_estimate_with_cloud_cover, if_neg h2, List.map,
      adjustmentFactor, day_cloud_cover]
    norm_num [List.take]
  · norm_num

/-- Claim C3 (amended): for every non-empty series, the daily factor is
computed once as `1 - (s / 24) / 100 * 0.7` where `s` is the sum of the
first 24 entries — the divisor is the constant 24 even when the series has
fewer than 24 entries — and this single factor is applied uniformly to
every day in the daily-energy mapping. -/
theorem claim_C3_amended (est : Estimate) (ccd : List ℚ) (hne : ccd ≠ []) :
    ∀ i, i < est.wh_days.length →
      (adjust_estimate_with_cloud_cover est ccd).wh_days.getD i dfltDay =
        ((est.wh_days.getD i dfltDay).1,
         (est.wh_days.getD i dfltDay).2 *
           (1 - (ccd.take 24).sum / 24 / 100 * (7 / 10))) := by
  intro i h
  simp only [adjust_estimate_with_cloud_cover, if_neg hne]
  rw [getD_map_of_lt _ _ _ h _ dfltDay]
  rfl

/-- Claim C3 witness: the amended theorem applied to a single-day estimate
and the one-entry series. -/
theorem claim_C3_amended_witness :
    (([100] : List ℚ) ≠ []) ∧
    (∀ i, i < (Estimate.mk [] [] [(0, 2400)]).wh_days.length →
      (adjust_estimate_with_cloud_cover ⟨[], [], [(0, 2400)]⟩
          [100]).wh_days.getD i dfltDay =
        (((Estimate.mk [] [] [(0, 2400)]).wh_days.getD i dfltDay).1,
         ((Estimate.mk [] [] [(0, 2400)]).wh_days.getD i dfltDay).2 *
           (1 - (([100] : List ℚ).take 24).sum / 24 / 100 * (7 / 10)))) :=
  ⟨by simp, claim_C3_amended ⟨[], [], [(0, 2400)]⟩ [100] (by simp)⟩

/-- Claim C4 counterexample: with the one-entry series `[100]` and a watts
entry at hour 1, the claim's lookup at index `1 % 1 = 0` would scale 1000
to 300, but the code leaves the value unmodified because `1 ≥ len`. -/
theorem claim_C4_counterexample :
    (adjust_estimate_with_cloud_cover ⟨[(⟨1⟩, 1000)], [], []⟩ [100]).watts =
      [(⟨1⟩, 1000)]
    ∧ (1000 : ℚ) ≠
        1000 * (1 - ([(100 : ℚ)]).getD (1 % [(100 : ℚ)].length) 0 / 100 *
          (7 / 10)) := by
  constructor
  · have h2 : ([100] : List ℚ) ≠ [] := by simp
    simp only [adjust_estimate_with_cloud_cover, if_neg h2, List.map,
      adjustHourlyEntry]
    norm_num
  · norm_num [List.getD]

/-- Claim C4 (amended): for every non-empty series, the lookup index is
the timestamp's hour-of-day itself: when `hour < len(series)` the value is
scaled using the entry at that index (where `hour % len` coincides with
`hour`), and when `hour ≥ len(series)` the value is left unmodified — no
modular wrap-around is performed. -/
theorem claim_C4_amended (est : Estimate) (ccd : List ℚ) (hne : ccd ≠ []) :
    (∀ i, i < est.watts.length →
      ((est.watts.getD i dfltEntry).1.hour < ccd.length →
        (adjust_estimate_with_cloud_cover est ccd).watts.getD i dfltEntry =
          ((est.watts.getD i dfltEntry).1,
           (est.watts.getD i dfltEntry).2 *
             (1 - ccd.getD ((est.watts.getD i dfltEntry).1.hour % ccd.length)
               0 / 100 * (7 / 10))))
      ∧ (ccd.length ≤ (est.watts.getD i dfltEntry).1.hour →
        (adjust_estimate_with_cloud_cover est ccd).watts.getD i dfltEntry =
          est.watts.getD i dfltEntry))
    ∧ (∀ i, i < est.wh_period.length →
      ((est.wh_period.getD i dfltEntry).1.hour < ccd.length →
        (adjust_estimate_with_cloud_cover est ccd).wh_period.getD i
            dfltEntry =
          ((est.wh_period.getD i dfltEntry).1,
           (est.wh_period.getD i dfltEntry).2 *
             (1 - ccd.getD
               ((est.wh_period.getD i dfltEntry).1.hour % ccd.length) 0 /
               100 * (7 / 10))))
      ∧ (ccd.length ≤ (est.wh_period.getD i dfltEntry).1.hour →
        (adjust_estimate_with_cloud_cover est ccd).wh_period.getD i
            dfltEntry =
          est.wh_period.getD i dfltEntry)) := by
  constructor
  · intro i h
    constructor
    · intro hh
      rw [Nat.mod_eq_of_lt hh]
      simp only [adjust_estimate_with_cloud_cover, if_neg hne]
      rw [adjustHourly_getD ccd est.watts i h, if_pos hh]
      rfl
    · intro hle
      simp only [adjust_estimate_with_cloud_cover, if_neg hne]
      rw [adjustHourly_getD ccd est.watts i h, if_neg (Nat.not_lt.mpr hle)]
  · intro i h
    constructor
    · intro hh
      rw [Nat.mod_eq_of_lt hh]
      simp only [adjust_estimate_with_cloud_cover, if_neg hne]
      rw [adjustHourly_getD ccd est.wh_period i h, if_pos hh]
      rfl
    · intro hle
      simp only [adjust_estimate_with_cloud_cover, if_neg hne]
      rw [adjustHourly_getD ccd est.wh_period i h,
        if_neg (Nat.not_lt.mpr hle)]

/-- Claim C4 witness: the amended theorem applied to an estimate with one
in-range hour (0) and one out-of-range hour (2) against the one-entry
series. -/
theorem claim_C4_amended_witness :
    (([100] : List ℚ) ≠ []) ∧
    ((∀ i, i < (Estimate.mk [(⟨0⟩, 1000), (⟨2⟩, 500)] [] []).watts.length →
      (((Estimate.mk [(⟨0⟩, 1000), (⟨2⟩, 500)] [] []).watts.getD i
          dfltEntry).1.hour < ([(100 : ℚ)]).length →
        (adjust_estimate_with_cloud_cover
            ⟨[(⟨0⟩, 1000), (⟨2⟩, 500)], [], []⟩ [100]).watts.getD i
            dfltEntry =
          (((Estimate.mk [(⟨0⟩, 1000), (⟨2⟩, 500)] [] []).watts.getD i
              dfltEntry).1,
           ((Estimate.mk [(⟨0⟩, 1000), (⟨2⟩, 500)] [] []).watts.getD i
              dfltEntry).2 *
             (1 - ([(100 : ℚ)]).getD
               (((Estimate.mk [(⟨0⟩, 1000), (⟨2⟩, 500)] [] []).watts.getD i
                 dfltEntry).1.hour % ([(100 : ℚ)]).length) 0 / 100 *
               (7 / 10))))
      ∧ (([(100 : ℚ)]).length ≤
          ((Estimate.mk [(⟨0⟩, 1000), (⟨2⟩, 500)] [] []).watts.getD i
            dfltEntry).1.hour →
        (adjust_estimate_with_cloud_cover
            ⟨[(⟨0⟩, 1000), (⟨2⟩, 500)], [], []⟩ [100]).watts.getD i
            dfltEntry =
          (Estimate.mk [(⟨0⟩, 1000), (⟨2⟩, 500)] [] []).watts.getD i
            dfltEntry))
    ∧ (∀ i, i < (Estimate.mk [(⟨0⟩, 1000), (⟨2⟩, 500)] [] []).wh_period.length →
      (((Estimate.mk [(⟨0⟩, 1000), (⟨2⟩, 500)] [] []).wh_period.getD i
          dfltEntry).1.hour < ([(100 : ℚ)]).length →
        (adjust_estimate_with_cloud_cover
            ⟨[(⟨0⟩, 1000), (⟨2⟩, 500)], [], []⟩ [100]).wh_period.getD i
            dfltEntry =
          (((Estimate.mk [(⟨0⟩, 1000), (⟨2⟩, 500)] [] []).wh_period.getD i
              dfltEntry).1,
           ((Estimate.mk [(⟨0⟩, 1000), (⟨2⟩, 500)] [] []).wh_period.getD i
              dfltEntry).2 *
             (1 - ([(100 : ℚ)]).getD
               (((Estimate.mk [(⟨0⟩, 1000), (⟨2⟩, 500)] [] []).wh_period.getD
                 i dfltEntry).1.hour % ([(100 : ℚ)]).length) 0 / 100 *
               (7 / 10))))
      ∧ (([(100 : ℚ)]).length ≤
          ((Estimate.mk [(⟨0⟩, 1000), (⟨2⟩, 500)] [] []).wh_period.getD i
            dfltEntry).1.hour →
        (adjust_estimate_with_cloud_cover
            ⟨[(⟨0⟩, 1000), (⟨2⟩, 500)], [], []⟩ [100]).wh_period.getD i
            dfltEntry =
          (Estimate.mk [(⟨0⟩, 1000), (⟨2⟩, 500)] [] []).wh_period.getD i
            dfltEntry))) :=
  ⟨by simp,
   claim_C4_amended ⟨[(⟨0⟩, 1000), (⟨2⟩, 500)], [], []⟩ [100] (by simp)⟩

/-- Rounding an integer (as a rational) is the identity. -/
theorem roundHalfEvenInt_intCast (k : ℤ) : roundHalfEvenInt (k : ℚ) = k := by
  unfold roundHalfEvenInt
  norm_num

/-- Rounding to 2 decimals is idempotent. -/
theorem roundTo2_idem (q : ℚ) : roundTo2 (roundTo2 q) = roundTo2 q := by
  unfold roundTo2
  have h : ((roundHalfEvenInt (q * 100) : ℚ) / 100) * 100 =
      (roundHalfEvenInt (q * 100) : ℚ) := by
    field_simp
  rw [h, roundHalfEvenInt_intCast]

/-- A successfully cleaned value is a fixed point of 2-decimal rounding. -/
theorem clean_value_ok_round (r : RawCoord) (q : ℚ)
    (h : clean_value r = .ok q) : roundTo2 q = q := by
  cases r with
  | num x =>
      simp only [clean_value, Except.ok.injEq] at h
      rw [← h, roundTo2_idem]
  | str s =>
      cases hp : parseFloat (pyStripBrackets s) with
      | none => simp [clean_value, hp] at h
      | some x =>
          simp only [clean_value, hp, Except.ok.injEq] at h
          rw [← h, roundTo2_idem]
  | seq l => simp [clean_value] at h

/-- Inversion of a successful `__init__`: both coordinates cleaned, the
range check passed, and the state fields are as stored. -/
theorem initCoordinator_ok_inv (cfg : Config) (c : CoordinatorState)
    (h : initCoordinator cfg = .ok c) :
    clean_value cfg.latitude = .ok c.latitude
    ∧ clean_value cfg.longitude = .ok c.longitude
    ∧ (-90 ≤ c.latitude ∧ c.latitude ≤ 90)
    ∧ (-180 ≤ c.longitude ∧ c.longitude ≤ 180)
    ∧ c.baseUrl = cfg.baseUrl
    ∧ c.data = none
    ∧ c.adjustment_stats = none := by
  unfold initCoordinator at h
  cases hlat : clean_value cfg.latitude with
  | error e => rw [hlat] at h; simp at h
  | ok lat =>
      rw [hlat] at h
      dsimp only at h
      cases hlon : clean_value cfg.longitude with
      | error e => rw [hlon] at h; simp at h
      | ok lon =>
          rw [hlon] at h
          dsimp only at h
          by_cases hr : ¬(-90 ≤ lat ∧ lat ≤ 90) ∨ ¬(-180 ≤ lon ∧ lon ≤ 180)
          · rw [if_pos hr] at h; simp at h
          · rw [if_neg hr] at h
            simp only [Except.ok.injEq] at h
            push_neg at hr
            subst h
            exact ⟨rfl, rfl, hr.1, hr.2, rfl, rfl, rfl⟩

/-- Claim C5: every cycle-level failure — the forecast client raising, a
non-200 cloud-cover status, or malformed JSON — makes the update raise a
single `UpdateFailed` carrying the original cause, and the refresh leaves
the previously published state (the last-known-good value) unchanged. -/
theorem claim_C5 (c : CoordinatorState) (fr : Except String Estimate)
    (resp : HttpResponse) :
    (∀ e, fr = .error e →
      async_update_data fr resp = .error ⟨.forecastError e⟩
      ∧ refreshStep c fr resp = c)
    ∧ (∀ est, fr = .ok est → resp.status ≠ 200 →
      async_update_data fr resp = .error ⟨.fetchStatus resp.status⟩
      ∧ refreshStep c fr resp = c)
    ∧ (∀ est, fr = .ok est → resp.status = 200 → resp.body = none →
      async_update_data fr resp = .error ⟨.malformedJson⟩
      ∧ refreshStep c fr resp = c) := by
  refine ⟨?_, ?_, ?_⟩
  · intro e he
    subst he
    exact ⟨rfl, rfl⟩
  · intro est he hs
    subst he
    have hf : fetch_hourly_cloud_cover resp = .error (.fetchStatus resp.status) := by
      unfold fetch_hourly_cloud_cover
      rw [if_pos hs]
    have h1 : async_update_data (.ok est) resp =
        .error ⟨.fetchStatus resp.status⟩ := by
      unfold async_update_data
      rw [hf]
    exact ⟨h1, by unfold refreshStep; rw [h1]⟩
  · intro est he hs hb
    subst he
    have hf : fetch_hourly_cloud_cover resp = .error .malformedJson := by
      unfold fetch_hourly_cloud_cover
      rw [if_neg (by simp [hs]), hb]
    have h1 : async_update_data (.ok est) resp = .error ⟨.malformedJson⟩ := by
      unfold async_update_data
      rw [hf]
    exact ⟨h1, by unfold refreshStep; rw [h1]⟩

/-- Claim C5 witness: the spec's HTTP 503 scenario — a coordinator holding
a last-known-good estimate keeps it unchanged when the cloud-cover fetch
returns status 503 and the cycle reports `UpdateFailed`. -/
theorem claim_C5_witness :
    ((Except.ok (⟨[(⟨0⟩, 1000)], [], []⟩ : Estimate) :
        Except String Estimate) = .ok ⟨[(⟨0⟩, 1000)], [], []⟩)
    ∧ ((503 : ℕ) ≠ 200)
    ∧ (async_update_data (.ok ⟨[(⟨0⟩, 1000)], [], []⟩) ⟨503, none⟩ =
        .error ⟨.fetchStatus 503⟩
      ∧ refreshStep
          ⟨52, 13, "https://api.open-meteo.com",
            some ⟨[(⟨0⟩, 650)], [], []⟩, none⟩
          (.ok ⟨[(⟨0⟩, 1000)], [], []⟩) ⟨503, none⟩ =
        ⟨52, 13, "https://api.open-meteo.com",
          some ⟨[(⟨0⟩, 650)], [], []⟩, none⟩) :=
  ⟨rfl, by decide,
   (claim_C5 ⟨52, 13, "https://api.open-meteo.com",
       some ⟨[(⟨0⟩, 650)], [], []⟩, none⟩
     (.ok ⟨[(⟨0⟩, 1000)], [], []⟩) ⟨503, none⟩).2.1
     ⟨[(⟨0⟩, 1000)], [], []⟩ rfl (by decide)⟩

/-- Claim C6 counterexample: with the custom base URL
`https://custom.example` configured, the cloud-cover request still targets
the hard-coded host `https://api.open-meteo.com`, not the configured base
URL. -/
theorem claim_C6_counterexample :
    initCoordinator ⟨.num 52, .num 13, "https://custom.example"⟩ =
      .ok ⟨52, 13, "https://custom.example", none, none⟩
    ∧ (cloudRequest ⟨52, 13, "https://custom.example", none, none⟩).base =
        "https://api.open-meteo.com"
    ∧ (cloudRequest ⟨52, 13, "https://custom.example", none, none⟩).base ≠
        "https://custom.example" := by
  refine ⟨?_, rfl, by decide⟩
  norm_num [initCoordinator, clean_value, roundTo2, roundHalfEvenInt]

/-- Claim C6 (amended): on every refresh of a successfully initialized
coordinator, the cloud-cover request is
`GET https://api.open-meteo.com/v1/forecast?latitude={lat}&longitude={lon}&hourly=cloud_cover`
with the host fixed to `https://api.open-meteo.com` regardless of the
configured custom base URL, and lat/lon equal to the configured
coordinates rounded to 2 decimal places. -/
theorem claim_C6 (cfg : Config) (c : CoordinatorState)
    (h : initCoordinator cfg = .ok c) :
    (cloudRequest c).method = "GET"
    ∧ (cloudRequest c).base = "https://api.open-meteo.com"
    ∧ (cloudRequest c).path = "/v1/forecast"
    ∧ (cloudRequest c).hourly = "cloud_cover"
    ∧ (∀ q, clean_value cfg.latitude = .ok q →
        (cloudRequest c).latitude = q)
    ∧ (∀ q, clean_value cfg.longitude = .ok q →
        (cloudRequest c).longitude = q) := by
  obtain ⟨hlat, hlon, -, -, -, -, -⟩ := initCoordinator_ok_inv cfg c h
  refine ⟨rfl, rfl, rfl, rfl, ?_, ?_⟩
  · intro q hq
    rw [hlat] at hq
    simp only [Except.ok.injEq] at hq
    subst hq
    show roundTo2 c.latitude = c.latitude
    exact clean_value_ok_round cfg.latitude c.latitude hlat
  · intro q hq
    rw [hlon] at hq
    simp only [Except.ok.injEq] at hq
    subst hq
    show roundTo2 c.longitude = c.longitude
    exact clean_value_ok_round cfg.longitude c.longitude hlon

/-- Claim C6 witness: the amended theorem applied to a concrete
configuration carrying a custom base URL. -/
theorem claim_C6_witness :
    (initCoordinator ⟨.num 52, .num 13, "https://custom.example"⟩ =
      .ok ⟨52, 13, "https://custom.example", none, none⟩)
    ∧ ((cloudRequest ⟨52, 13, "https://custom.example", none, none⟩).method =
        "GET"
      ∧ (cloudRequest ⟨52, 13, "https://custom.example", none, none⟩).base =
        "https://api.open-meteo.com"
      ∧ (cloudRequest ⟨52, 13, "https://custom.example", none, none⟩).path =
        "/v1/forecast"
      ∧ (cloudRequest ⟨52, 13, "https://custom.example", none, none⟩).hourly =
        "cloud_cover"
      ∧ (∀ q, clean_value (RawCoord.num 52) = .ok q →
          (cloudRequest ⟨52, 13, "https://custom.example", none,
            none⟩).latitude = q)
      ∧ (∀ q, clean_value (RawCoord.num 13) = .ok q →
          (cloudRequest ⟨52, 13, "https://custom.example", none,
            none⟩).longitude = q)) :=
  ⟨by norm_num [initCoordinator, clean_value, roundTo2, roundHalfEvenInt],
   claim_C6 ⟨.num 52, .num 13, "https://custom.example"⟩
     ⟨52, 13, "https://custom.example", none, none⟩
     (by norm_num [initCoordinator, clean_value, roundTo2, roundHalfEvenInt])⟩

/-- Claim C8: a coerced latitude outside [-90, 90] or longitude outside
[-180, 180] makes initialization fail with the configuration error before
anything else happens, and the range check never recurs during a fetch:
the published outcome of a refresh step never depends on the stored
coordinates. -/
theorem claim_C8 (cfg : Config) (lat lon : ℚ)
    (hlat : clean_value cfg.latitude = .ok lat)
    (hlon : clean_value cfg.longitude = .ok lon)
    (hout : ¬(-90 ≤ lat ∧ lat ≤ 90) ∨ ¬(-180 ≤ lon ∧ lon ≤ 180)) :
    initCoordinator cfg = .error .configError
    ∧ (∀ c₁ c₂ : CoordinatorState, ∀ fr resp, c₁.data = c₂.data →
        (refreshStep c₁ fr resp).data = (refreshStep c₂ fr resp).data) := by
  constructor
  · unfold initCoordinator
    rw [hlat]
    dsimp only
    rw [hlon]
    dsimp only
    rw [if_pos hout]
  · intro c₁ c₂ fr resp hdata
    unfold refreshStep
    cases async_update_data fr resp <;> simp [hdata]

/-- Claim C8 witness: the theorem applied to a configuration whose
latitude 91 is out of range. -/
theorem claim_C8_witness :
    (clean_value (RawCoord.num 91) = .ok 91)
    ∧ (clean_value (RawCoord.num 13) = .ok 13)
    ∧ (¬((-90 : ℚ) ≤ 91 ∧ (91 : ℚ) ≤ 90) ∨
        ¬((-180 : ℚ) ≤ 13 ∧ (13 : ℚ) ≤ 180))
    ∧ (initCoordinator ⟨.num 91, .num 13, "https://custom.example"⟩ =
        .error .configError
      ∧ (∀ c₁ c₂ : CoordinatorState, ∀ fr resp, c₁.data = c₂.data →
          (refreshStep c₁ fr resp).data = (refreshStep c₂ fr resp).data)) :=
  ⟨by norm_num [clean_value, roundTo2, roundHalfEvenInt],
   by norm_num [clean_value, roundTo2, roundHalfEvenInt],
   by norm_num,
   claim_C8 ⟨.num 91, .num 13, "https://custom.example"⟩ 91 13
     (by norm_num [clean_value, roundTo2, roundHalfEvenInt])
     (by norm_num [clean_value, roundTo2, roundHalfEvenInt])
     (by norm_num)⟩

/-- The adjustment factor never exceeds 1 for nonnegative cloud cover. -/
theorem adjustmentFactor_le_one (cc : ℚ) (h : 0 ≤ cc) :
    adjustmentFactor cc ≤ 1 := by
  unfold adjustmentFactor
  nlinarith

/-- The adjustment factor is at least 3/10 for cloud cover at most 100. -/
theorem adjustmentFactor_ge (cc : ℚ) (h : cc ≤ 100) :
    3 / 10 ≤ adjustmentFactor cc := by
  unfold adjustmentFactor
  nlinarith

/-- A list of rationals bounded above by `n` has sum at most `length * n`. -/
theorem list_sum_le_mul (l : List ℚ) (n : ℚ) (h : ∀ x ∈ l, x ≤ n) :
    l.sum ≤ l.length * n := by
  induction l with
  | nil => simp
  | cons a t ih =>
      simp only [List.sum_cons, List.length_cons]
      have h1 : a ≤ n := h a (by simp)
      have h2 : t.sum ≤ t.length * n := ih (fun x hx => h x (by simp [hx]))
      push_cast
      nlinarith

/-- The daily mean computed by the code lies in [0, 100] whenever every
series entry lies in [0, 100]. -/
theorem day_cloud_cover_bounds (ccd : List ℚ)
    (hcc : ∀ c ∈ ccd, 0 ≤ c ∧ c ≤ 100) :
    0 ≤ day_cloud_cover ccd ∧ day_cloud_cover ccd ≤ 100 := by
  unfold day_cloud_cover
  have hsub : ∀ x ∈ ccd.take 24, x ∈ ccd := fun x hx => List.take_subset 24 ccd hx
  constructor
  · have h0 : 0 ≤ (ccd.take 24).sum :=
      List.sum_nonneg (fun x hx => (hcc x (hsub x hx)).1)
    positivity
  · have h1 : (ccd.take 24).sum ≤ (ccd.take 24).length * 100 :=
      list_sum_le_mul _ 100 (fun x hx => (hcc x (hsub x hx)).2)
    have h2 : ((ccd.take 24).length : ℚ) ≤ 24 := by
      have := List.length_take_le 24 ccd
      exact_mod_cast this
    rw [div_le_iff₀ (by norm_num : (0:ℚ) < 24)]
    nlinarith

/-- Entry-level bounds for the hourly adjustment. -/
theorem adjustHourlyEntry_bounds (ccd : List ℚ)
    (hcc : ∀ c ∈ ccd, 0 ≤ c ∧ c ≤ 100) (p : Timestamp × ℚ) (hp : 0 ≤ p.2) :
    3 / 10 * p.2 ≤ (adjustHourlyEntry ccd p).2
    ∧ (adjustHourlyEntry ccd p).2 ≤ p.2 := by
  unfold adjustHourlyEntry
  by_cases h : p.1.hour < ccd.length
  · rw [if_pos h]
    obtain ⟨h0, h1⟩ := hcc _ (getD_mem_of_lt ccd _ h 0)
    have hf1 := adjustmentFactor_le_one (ccd.getD p.1.hour 0) h0
    have hf2 := adjustmentFactor_ge (ccd.getD p.1.hour 0) h1
    constructor <;> · show _ * _ ≤ _; nlinarith
  · rw [if_neg h]
    constructor <;> nlinarith

/-- Claim C9 counterexample: the coordinator never sets the
`adjustment_stats` attribute, so after a refresh that did adjust (series
`[100]`) and one that did not (empty series) — which publish different
data — the debug sensor reads `No data` and the `cloud_adjustment`
attribute is absent in both cases; the two cycles are not distinguishable
through these diagnostics. -/
theorem claim_C9_counterexample :
    debugNativeValue
      (refreshStep ⟨52, 13, "https://api.open-meteo.com", none, none⟩
        (.ok ⟨[(⟨0⟩, 1000)], [], []⟩)
        ⟨200, some ⟨some ⟨some [100]⟩⟩⟩) = "No data"
    ∧ debugNativeValue
      (refreshStep ⟨52, 13, "https://api.open-meteo.com", none, none⟩
        (.ok ⟨[(⟨0⟩, 1000)], [], []⟩)
        ⟨200, some ⟨some ⟨some []⟩⟩⟩) = "No data"
    ∧ cloudAdjustmentInfo
      (refreshStep ⟨52, 13, "https://api.open-meteo.com", none, none⟩
        (.ok ⟨[(⟨0⟩, 1000)], [], []⟩)
        ⟨200, some ⟨some ⟨some [100]⟩⟩⟩) = none
    ∧ cloudAdjustmentInfo
      (refreshStep ⟨52, 13, "https://api.open-meteo.com", none, none⟩
        (.ok ⟨[(⟨0⟩, 1000)], [], []⟩)
        ⟨200, some ⟨some ⟨some []⟩⟩⟩) = none
    ∧ (refreshStep ⟨52, 13, "https://api.open-meteo.com", none, none⟩
        (.ok ⟨[(⟨0⟩, 1000)], [], []⟩)
        ⟨200, some ⟨some ⟨some [100]⟩⟩⟩).data ≠
      (refreshStep ⟨52, 13, "https://api.open-meteo.com", none, none⟩
        (.ok ⟨[(⟨0⟩, 1000)], [], []⟩)
        ⟨200, some ⟨some ⟨some []⟩⟩⟩).data := by
  refine ⟨rfl, rfl, rfl, rfl, ?_⟩
  simp only [refreshStep, async_update_data, fetch_hourly_cloud_cover,
    adjust_estimate_with_cloud_cover, adjustHourlyEntry, adjustmentFactor,
    day_cloud_cover, List.map]
  norm_num [List.getD]

/-- Claim C9 (amended): in this version the coordinator never sets the
`adjustment_stats` attribute, so after any refresh of an initialized
coordinator the debug sensor reports the string `No data` and the energy
sensors carry no `cloud_adjustment` attribute, whether or not an
adjustment was applied; the empty-series degradation is not observable
through these diagnostics. -/
theorem claim_C9_amended (cfg : Config) (c : CoordinatorState)
    (h : initCoordinator cfg = .ok c)
    (fr : Except String Estimate) (resp : HttpResponse) :
    c.adjustment_stats = none
    ∧ (refreshStep c fr resp).adjustment_stats = none
    ∧ debugNativeValue (refreshStep c fr resp) = "No data"
    ∧ cloudAdjustmentInfo (refreshStep c fr resp) = none := by
  obtain ⟨-, -, -, -, -, -, hstats⟩ := initCoordinator_ok_inv cfg c h
  have hpres : (refreshStep c fr resp).adjustment_stats =
      c.adjustment_stats := by
    unfold refreshStep
    cases async_update_data fr resp <;> rfl
  refine ⟨hstats, by rw [hpres, hstats], ?_, ?_⟩
  · unfold debugNativeValue
    rw [hpres, hstats]
  · unfold cloudAdjustmentInfo
    rw [hpres, hstats]
    rfl

/-- Claim C9 witness: the amended theorem applied to a fresh coordinator
and a successful refresh carrying a non-empty series. -/
theorem claim_C9_amended_witness :
    (initCoordinator ⟨.num 52, .num 13, "https://custom.example"⟩ =
      .ok ⟨52, 13, "https://custom.example", none, none⟩)
    ∧ ((⟨52, 13, "https://custom.example", none, none⟩ :
        CoordinatorState).adjustment_stats = none
      ∧ (refreshStep ⟨52, 13, "https://custom.example", none, none⟩
          (.ok ⟨[(⟨0⟩, 1000)], [], []⟩)
          ⟨200, some ⟨some ⟨some [100]⟩⟩⟩).adjustment_stats = none
      ∧ debugNativeValue
          (refreshStep ⟨52, 13, "https://custom.example", none, none⟩
            (.ok ⟨[(⟨0⟩, 1000)], [], []⟩)
            ⟨200, some ⟨some ⟨some [100]⟩⟩⟩) = "No data"
      ∧ cloudAdjustmentInfo
          (refreshStep ⟨52, 13, "https://custom.example", none, none⟩
            (.ok ⟨[(⟨0⟩, 1000)], [], []⟩)
            ⟨200, some ⟨some ⟨some [100]⟩⟩⟩) = none) :=
  ⟨by norm_num [initCoordinator, clean_value, roundTo2, roundHalfEvenInt],
   claim_C9_amended ⟨.num 52, .num 13, "https://custom.example"⟩
     ⟨52, 13, "https://custom.example", none, none⟩
     (by norm_num [initCoordinator, clean_value, roundTo2, roundHalfEvenInt])
     (.ok ⟨[(⟨0⟩, 1000)], [], []⟩) ⟨200, some ⟨some ⟨some [100]⟩⟩⟩⟩

/-- Claim C10: with all series entries in [0, 100] and nonnegative
baseline values, the adjustment never increases a value — every adjusted
watts, period-energy and daily-energy entry lies between 3/10 of and
exactly its original value — and hourly entries whose hour-of-day is not a
valid index into the series are exactly unchanged. -/
theorem claim_C10 (est : Estimate) (ccd : List ℚ)
    (hcc : ∀ c ∈ ccd, 0 ≤ c ∧ c ≤ 100)
    (hw : ∀ p ∈ est.watts, 0 ≤ p.2)
    (hp : ∀ p ∈ est.wh_period, 0 ≤ p.2)
    (hd : ∀ p ∈ est.wh_days, 0 ≤ p.2) :
    (∀ i, i < est.watts.length →
      3 / 10 * (est.watts.getD i dfltEntry).2 ≤
        ((adjust_estimate_with_cloud_cover est ccd).watts.getD i dfltEntry).2
      ∧ ((adjust_estimate_with_cloud_cover est ccd).watts.getD i
          dfltEntry).2 ≤ (est.watts.getD i dfltEntry).2)
    ∧ (∀ i, i < est.wh_period.length →
      3 / 10 * (est.wh_period.getD i dfltEntry).2 ≤
        ((adjust_estimate_with_cloud_cover est ccd).wh_period.getD i
          dfltEntry).2
      ∧ ((adjust_estimate_with_cloud_cover est ccd).wh_period.getD i
          dfltEntry).2 ≤ (est.wh_period.getD i dfltEntry).2)
    ∧ (∀ i, i < est.wh_days.length →
      3 / 10 * (est.wh_days.getD i dfltDay).2 ≤
        ((adjust_estimate_with_cloud_cover est ccd).wh_days.getD i
          dfltDay).2
      ∧ ((adjust_estimate_with_cloud_cover est ccd).wh_days.getD i
          dfltDay).2 ≤ (est.wh_days.getD i dfltDay).2)
    ∧ (∀ i, i < est.watts.length →
      ccd.length ≤ (est.watts.getD i dfltEntry).1.hour →
      (adjust_estimate_with_cloud_cover est ccd).watts.getD i dfltEntry =
        est.watts.getD i dfltEntry)
    ∧ (∀ i, i < est.wh_period.length →
      ccd.length ≤ (est.wh_period.getD i dfltEntry).1.hour →
      (adjust_estimate_with_cloud_cover est ccd).wh_period.getD i
          dfltEntry =
        est.wh_period.getD i dfltEntry) := by
  by_cases hne : ccd = []
  · subst hne
    have hid : ∀ e : Estimate, adjust_estimate_with_cloud_cover e [] = e := by
      intro e
      simp [adjust_estimate_with_cloud_cover]
    rw [hid]
    refine ⟨?_, ?_, ?_, ?_, ?_⟩
    · intro i h
      have := hw _ (getD_mem_of_lt est.watts i h dfltEntry)
      constructor <;> nlinarith
    · intro i h
      have := hp _ (getD_mem_of_lt est.wh_period i h dfltEntry)
      constructor <;> nlinarith
    · intro i h
      have := hd _ (getD_mem_of_lt est.wh_days i h dfltDay)
      constructor <;> nlinarith
    · intro i h hh
      rfl
    · intro i h hh
      rfl
  · have hunfold :
        adjust_estimate_with_cloud_cover est ccd =
          { watts := est.watts.map (adjustHourlyEntry ccd)
            wh_period := est.wh_period.map (adjustHourlyEntry ccd)
            wh_days := est.wh_days.map (fun p =>
              (p.1, p.2 * adjustmentFactor (day_cloud_cover ccd))) } := by
      simp [adjust_estimate_with_cloud_cover, hne]
    rw [hunfold]
    refine ⟨?_, ?_, ?_, ?_, ?_⟩
    · intro i h
      rw [getD_map_of_lt _ _ _ h _ dfltEntry]
      exact adjustHourlyEntry_bounds ccd hcc _
        (hw _ (getD_mem_of_lt est.watts i h dfltEntry))
    · intro i h
      rw [getD_map_of_lt _ _ _ h _ dfltEntry]
      exact adjustHourlyEntry_bounds ccd hcc _
        (hp _ (getD_mem_of_lt est.wh_period i h dfltEntry))
    · intro i h
      rw [getD_map_of_lt _ _ _ h _ dfltDay]
      have hv := hd _ (getD_mem_of_lt est.wh_days i h dfltDay)
      obtain ⟨hm0, hm1⟩ := day_cloud_cover_bounds ccd hcc
      have hf1 := adjustmentFactor_le_one (day_cloud_cover ccd) hm0
      have hf2 := adjustmentFactor_ge (day_cloud_cover ccd) hm1
      dsimp only
      constructor <;> nlinarith
    · intro i h hh
      rw [getD_map_of_lt _ _ _ h _ dfltEntry]
      unfold adjustHourlyEntry
      rw [if_neg (Nat.not_lt.mpr hh)]
    · intro i h hh
      rw [getD_map_of_lt _ _ _ h _ dfltEntry]
      unfold adjustHourlyEntry
      rw [if_neg (Nat.not_lt.mpr hh)]

/-- Claim C10 witness: the theorem applied to a small estimate with one
in-range hour, one out-of-range hour and one daily total, against the
series `[50]`. -/
theorem claim_C10_witness :
    (∀ c ∈ [(50 : ℚ)], 0 ≤ c ∧ c ≤ 100)
    ∧ (∀ p ∈ (Estimate.mk [(⟨0⟩, 1000), (⟨2⟩, 500)] [(⟨0⟩, 300)]
        [(0, 2400)]).watts, 0 ≤ p.2)
    ∧ (∀ p ∈ (Estimate.mk [(⟨0⟩, 1000), (⟨2⟩, 500)] [(⟨0⟩, 300)]
        [(0, 2400)]).wh_period, 0 ≤ p.2)
    ∧ (∀ p ∈ (Estimate.mk [(⟨0⟩, 1000), (⟨2⟩, 500)] [(⟨0⟩, 300)]
        [(0, 2400)]).wh_days, 0 ≤ p.2)
    ∧ ((∀ i, i < (Estimate.mk [(⟨0⟩, 1000), (⟨2⟩, 500)] [(⟨0⟩, 300)]
          [(0, 2400)]).watts.length →
        3 / 10 * ((Estimate.mk [(⟨0⟩, 1000), (⟨2⟩, 500)] [(⟨0⟩, 300)]
            [(0, 2400)]).watts.getD i dfltEntry).2 ≤
          ((adjust_estimate_with_cloud_cover
            ⟨[(⟨0⟩, 1000), (⟨2⟩, 500)], [(⟨0⟩, 300)], [(0, 2400)]⟩
            [50]).watts.getD i dfltEntry).2
        ∧ ((adjust_estimate_with_cloud_cover
            ⟨[(⟨0⟩, 1000), (⟨2⟩, 500)], [(⟨0⟩, 300)], [(0, 2400)]⟩
            [50]).watts.getD i dfltEntry).2 ≤
          ((Estimate.mk [(⟨0⟩, 1000), (⟨2⟩, 500)] [(⟨0⟩, 300)]
            [(0, 2400)]).watts.getD i dfltEntry).2)
      ∧ (∀ i, i < (Estimate.mk [(⟨0⟩, 1000), (⟨2⟩, 500)] [(⟨0⟩, 300)]
          [(0, 2400)]).wh_period.length →
        3 / 10 * ((Estimate.mk [(⟨0⟩, 1000), (⟨2⟩, 500)] [(⟨0⟩, 300)]
            [(0, 2400)]).wh_period.getD i dfltEntry).2 ≤
          ((adjust_estimate_with_cloud_cover
            ⟨[(⟨0⟩, 1000), (⟨2⟩, 500)], [(⟨0⟩, 300)], [(0, 2400)]⟩
            [50]).wh_period.getD i dfltEntry).2
        ∧ ((adjust_estimate_with_cloud_cover
            ⟨[(⟨0⟩, 1000), (⟨2⟩, 500)], [(⟨0⟩, 300)], [(0, 2400)]⟩
            [50]).wh_period.getD i dfltEntry).2 ≤
          ((Estimate.mk [(⟨0⟩, 1000), (⟨2⟩, 500)] [(⟨0⟩, 300)]
            [(0, 2400)]).wh_period.getD i dfltEntry).2)
      ∧ (∀ i, i < (Estimate.mk [(⟨0⟩, 1000), (⟨2⟩, 500)] [(⟨0⟩, 300)]
          [(0, 2400)]).wh_days.length →
        3 / 10 * ((Estimate.mk [(⟨0⟩, 1000), (⟨2⟩, 500)] [(⟨0⟩, 300)]
            [(0, 2400)]).wh_days.getD i dfltDay).2 ≤
          ((adjust_estimate_with_cloud_cover
            ⟨[(⟨0⟩, 1000), (⟨2⟩, 500)], [(⟨0⟩, 300)], [(0, 2400)]⟩
            [50]).wh_days.getD i dfltDay).2
        ∧ ((adjust_estimate_with_cloud_cover
            ⟨[(⟨0⟩, 1000), (⟨2⟩, 500)], [(⟨0⟩, 300)], [(0, 2400)]⟩
            [50]).wh_days.getD i dfltDay).2 ≤
          ((Estimate.mk [(⟨0⟩, 1000), (⟨2⟩, 500)] [(⟨0⟩, 300)]
            [(0, 2400)]).wh_days.getD i dfltDay).2)
      ∧ (∀ i, i < (Estimate.mk [(⟨0⟩, 1000), (⟨2⟩, 500)] [(⟨0⟩, 300)]
          [(0, 2400)]).watts.length →
        ([(50 : ℚ)]).length ≤
          ((Estimate.mk [(⟨0⟩, 1000), (⟨2⟩, 500)] [(⟨0⟩, 300)]
            [(0, 2400)]).watts.getD i dfltEntry).1.hour →
        (adjust_estimate_with_cloud_cover
            ⟨[(⟨0⟩, 1000), (⟨2⟩, 500)], [(⟨0⟩, 300)], [(0, 2400)]⟩
            [50]).watts.getD i dfltEntry =
          (Estimate.mk [(⟨0⟩, 1000), (⟨2⟩, 500)] [(⟨0⟩, 300)]
            [(0, 2400)]).watts.getD i dfltEntry)
      ∧ (∀ i, i < (Estimate.mk [(⟨0⟩, 1000), (⟨2⟩, 500)] [(⟨0⟩, 300)]
          [(0, 2400)]).wh_period.length →
        ([(50 : ℚ)]).length ≤
          ((Estimate.mk [(⟨0⟩, 1000), (⟨2⟩, 500)] [(⟨0⟩, 300)]
            [(0, 2400)]).wh_period.getD i dfltEntry).1.hour →
        (adjust_estimate_with_cloud_cover
            ⟨[(⟨0⟩, 1000), (⟨2⟩, 500)], [(⟨0⟩, 300)], [(0, 2400)]⟩
            [50]).wh_period.getD i dfltEntry =
          (Estimate.mk [(⟨0⟩, 1000), (⟨2⟩, 500)] [(⟨0⟩, 300)]
            [(0, 2400)]).wh_period.getD i dfltEntry)) :=
  ⟨by intro c hc; simp only [List.mem_singleton] at hc; subst hc; norm_num,
   by
    intro p hp
    simp only [List.mem_cons, List.not_mem_nil, or_false] at hp
    rcases hp with h | h <;> subst h <;> norm_num,
   by
    intro p hp
    simp only [List.mem_cons, List.not_mem_nil, or_false] at hp
    subst hp
    norm_num,
   by
    intro p hp
    simp only [List.mem_cons, List.not_mem_nil, or_false] at hp
    subst hp
    norm_num,
   claim_C10 ⟨[(⟨0⟩, 1000), (⟨2⟩, 500)], [(⟨0⟩, 300)], [(0, 2400)]⟩ [50]
     (by intro c hc; simp only [List.mem_singleton] at hc; subst hc; norm_num)
     (by
       intro p hp
       simp only [List.mem_cons, List.not_mem_nil, or_false] at hp
       rcases hp with h | h <;> subst h <;> norm_num)
     (by
       intro p hp
       simp only [List.mem_cons, List.not_mem_nil, or_false] at hp
       subst hp
       norm_num)
     (by
       intro p hp
       simp only [List.mem_cons, List.not_mem_nil, or_false] at hp
       subst hp
       norm_num)⟩

/-- Stripping brackets is insensitive to wrapping the string in one more
bracket pair. -/
theorem pyStripBrackets_wrap (s : List Char) :
    pyStripBrackets ('[' :: (s ++ [']'])) = pyStripBrackets s := by
  unfold pyStripBrackets
  have hd1 : List.dropWhile isBracket ('[' :: (s ++ [']'])) =
      List.dropWhile isBracket (s ++ [']']) := by
    rw [List.dropWhile_cons]
    simp [isBracket]
  have hd2 : ∀ t : List Char, List.dropWhile isBracket (']' :: t) =
      List.dropWhile isBracket t := by
    intro t
    rw [List.dropWhile_cons]
    simp [isBracket]
  rw [hd1, List.dropWhile_append]
  by_cases hd : (List.dropWhile isBracket s).isEmpty
  · rw [if_pos hd]
    have h2 : List.dropWhile isBracket s = [] := List.isEmpty_iff.mp hd
    rw [h2]
    rfl
  · rw [if_neg hd, List.reverse_append]
    simp only [List.reverse_cons, List.reverse_nil, List.nil_append,
      List.singleton_append]
    rw [hd2]

/-- Claim C7 counterexample: the single-element sequence `[52.52]` is not
accepted — `float()` on a list raises `TypeError` — whereas the same value
as a plain number is accepted, so the claim that all three input shapes
are accepted and yield the same value fails. -/
theorem claim_C7_counterexample :
    clean_value (.seq [5252 / 100]) = .error .typeErr
    ∧ clean_value (.num (5252 / 100)) = .ok (5252 / 100)
    ∧ (Except.error PyError.typeErr : Except PyError ℚ) ≠
        .ok (5252 / 100) := by
  refine ⟨rfl, ?_, by simp⟩
  norm_num [clean_value, roundTo2, roundHalfEvenInt]

/-- Claim C7 (amended): normalization accepts a plain number and a string
possibly wrapped in bracket characters and yields the same decimal value
for both shapes (bracket wrapping never changes the result); a string that
cannot be coerced to a decimal number fails (`ValueError`); but a
single-element sequence is never accepted: every sequence fails with
`TypeError` before its element is examined. -/
theorem claim_C7 :
    (∀ s, clean_value (.str ('[' :: (s ++ [']']))) = clean_value (.str s))
    ∧ (∀ q, clean_value (.num q) = .ok (roundTo2 q))
    ∧ (∀ s q, parseFloat (pyStripBrackets s) = some q →
        clean_value (.str s) = clean_value (.num q))
    ∧ (∀ s, parseFloat (pyStripBrackets s) = none →
        clean_value (.str s) = .error .valueErr)
    ∧ (∀ l : List ℚ, clean_value (.seq l) = .error .typeErr) := by
  refine ⟨?_, ?_, ?_, ?_, ?_⟩
  · intro s
    show (match parseFloat (pyStripBrackets ('[' :: (s ++ [']']))) with
      | some q => Except.ok (roundTo2 q)
      | none => Except.error PyError.valueErr) = _
    rw [pyStripBrackets_wrap]
    rfl
  · intro q
    rfl
  · intro s q h
    show (match parseFloat (pyStripBrackets s) with
      | some q => Except.ok (roundTo2 q)
      | none => Except.error PyError.valueErr) = _
    rw [h]
    rfl
  · intro s h
    show (match parseFloat (pyStripBrackets s) with
      | some q => Except.ok (roundTo2 q)
      | none => Except.error PyError.valueErr) = _
    rw [h]
  · intro l
    rfl

/-- Claim C7 witness: the string `52.52`, its bracketed form `[52.52]` and
the number 52.52 all normalize to the same value, evaluated concretely. -/
theorem claim_C7_witness :
    (parseFloat (pyStripBrackets ['5', '2', '.', '5', '2']) =
      some (1313 / 25))
    ∧ clean_value (.str ['5', '2', '.', '5', '2']) =
        clean_value (.num (1313 / 25))
    ∧ clean_value
        (.str ('[' :: (['5', '2', '.', '5', '2'] ++ [']']))) =
        clean_value (.str ['5', '2', '.', '5', '2']) := by
  have hparse : parseFloat (pyStripBrackets ['5', '2', '.', '5', '2']) =
      some (1313 / 25) := by
    have hstrip : pyStripBrackets ['5', '2', '.', '5', '2'] =
        ['5', '2', '.', '5', '2'] := rfl
    rw [hstrip]
    show parseUnsigned ['5', '2', '.', '5', '2'] = some (1313 / 25)
    have h2 : List.dropWhile Char.isDigit ['5', '2', '.', '5', '2'] =
        ['.', '5', '2'] := rfl
    have h1 : List.takeWhile Char.isDigit ['5', '2', '.', '5', '2'] =
        ['5', '2'] := rfl
    unfold parseUnsigned
    rw [h2]
    dsimp only
    rw [if_pos (by refine ⟨rfl, by decide, Or.inl ?_⟩; rw [h1]; simp)]
    rw [h1]
    have h3 : digitsToNat ['5', '2'] = 52 := rfl
    have h4 : digitsToNat ['5', '2'] = 52 := rfl
    rw [h3]
    norm_num
  exact ⟨hparse, claim_C7.2.2.1 ['5', '2', '.', '5', '2'] (1313 / 25) hparse,
    claim_C7.1 ['5', '2', '.', '5', '2']⟩

end OpenMeteoSolar
